import Mathlib

/-!
Verification development for the floating-element detection engine
(`src/script.js`, class `FloatingElementDetector`).

The engine state (`isDetecting`, `detectedElements`, `stats`, the
MutationObserver subscription) is embedded as an explicit record; the
per-element procedures `analyzeElement`, `isFloatingElement`,
`hasFloatingCharacteristics`, `updateStats` and `clearResults` are
translated as pure functions that thread the state and return the
emitted detection events.  DOM introspection results
(`getComputedStyle`, `getBoundingClientRect`, checkbox configuration,
`closest` queries) are passed in as explicit inputs, since the engine
only ever reads them through those calls.
-/

namespace FloatingDetect

/-- Occurrence of `pat` as a contiguous sublist of a character list; this is
the substring search underlying the model of JS `String.prototype.includes`. -/
def charsContain (pat : List Char) : List Char → Bool
  | [] => pat.isPrefixOf []
  | c :: t => pat.isPrefixOf (c :: t) || charsContain pat t

/-- Model of `s.includes(pat)` for JS strings. -/
def strIncludes (s pat : String) : Bool := charsContain pat.data s.data

/-- Model of `s.toLowerCase()`; the identifiers the code lowercases are ASCII
class/id strings, for which per-character lowering is exact. -/
def strToLower (s : String) : String := ⟨s.data.map Char.toLower⟩

/-- An element handle.  `uid` is the identity used by the identity-keyed
`detectedElements` set; the `closest*` fields record the outcomes of the
`element.closest(...)` ancestor queries the code performs; `isBody` and
`isDocumentElement` record identity with `document.body` /
`document.documentElement`; `dataFloatingReasons` is the
`data-floating-reasons` attribute the classifier may write back. -/
structure Element where
  uid : Nat
  className : String
  id : String
  childrenCount : Nat
  isBody : Bool
  isDocumentElement : Bool
  closestHeader : Bool
  closestMain : Bool
  closestFooter : Bool
  closestDataApp : Bool
  closestIdApp : Bool
  closestClassApp : Bool
  dataFloatingReasons : Option String
  deriving DecidableEq, Repr

/-- Result of `window.getComputedStyle(element)` as read by the code:
`position`, and `parseInt(style.zIndex)` where `none` models a `NaN` parse
(e.g. `z-index: auto`). -/
structure ComputedStyle where
  position : String
  zIndex : Option Int
  deriving DecidableEq, Repr

/-- Result of `element.getBoundingClientRect()`; the code only compares the
four edges, so they are modelled as integers. -/
structure Rect where
  top : Int
  left : Int
  right : Int
  bottom : Int
  deriving DecidableEq, Repr

/-- `window.innerWidth` / `window.innerHeight`. -/
structure Viewport where
  innerWidth : Int
  innerHeight : Int
  deriving DecidableEq, Repr

/-- The three checkbox flags read at the top of `isFloatingElement`. -/
structure Checks where
  detectPosition : Bool
  detectHighZIndex : Bool
  detectOverflow : Bool
  deriving DecidableEq, Repr

/-- The `this.stats` record. -/
structure Stats where
  total : Nat
  fixed : Nat
  absolute : Nat
  highZIndex : Nat
  deriving DecidableEq, Repr

/-- Mutable fields of the `FloatingElementDetector` instance:
session flag, dedup registry (list of element uids in insertion order,
modelling the JS `Set`), stats, and whether the MutationObserver is
currently observing (`observe` called and not `disconnect`ed; observing
the same target again replaces the registration, so a single flag is
faithful to the DOM semantics). -/
structure EngineState where
  isDetecting : Bool
  detectedElements : List Nat
  stats : Stats
  observerConnected : Bool
  deriving DecidableEq, Repr

/-- The keyword vocabulary of `hasFloatingCharacteristics`. -/
def floatingKeywords : List String :=
  ["float", "overlay", "modal", "popup", "tooltip", "dropdown",
   "sidebar", "drawer", "panel", "widget", "chat", "notification",
   "banner", "sticky", "fixed", "floating", "fab", "action-button"]

/-- The `floatingKeywords.some(...)` test over the lowercased class and id. -/
def hasFloatingKeyword (e : Element) : Bool :=
  floatingKeywords.any fun k =>
    strIncludes (strToLower e.className) k || strIncludes (strToLower e.id) k

/-- `!isNaN(z) && z > bound` for a parsed z-index. -/
def zIndexGT (z : Option Int) (bound : Int) : Bool :=
  match z with
  | some v => v > bound
  | none => false

/-- `['fixed', 'absolute', 'sticky'].includes(position)`. -/
def isPositionedMode (p : String) : Bool :=
  p == "fixed" || p == "absolute" || p == "sticky"

/-- Translation of `hasFloatingCharacteristics(element, computedStyle)`. -/
def hasFloatingCharacteristics (e : Element) (cs : ComputedStyle) : Bool :=
  let hasHighZIndex := zIndexGT cs.zIndex 50
  let isPositioned := isPositionedMode cs.position
  let isLikelyInjected := !e.closestDataApp && !e.closestIdApp && !e.closestClassApp
  hasFloatingKeyword e || (hasHighZIndex && isPositioned) ||
    (isPositioned && isLikelyInjected && decide (e.childrenCount > 0))

/-- One step of the `isFloating`/`reasons` accumulation: if the check fired,
set the flag and push the reason, otherwise leave the accumulator alone. -/
def stepCheck (acc : Bool × List String) (hit : Bool) (reason : String) :
    Bool × List String :=
  if hit then (true, acc.2 ++ [reason]) else acc

/-- The rendering of the parsed z-index inside the "High z-index" reason;
only evaluated when the parse succeeded. -/
def zStr (z : Option Int) : String :=
  match z with
  | some v => toString v
  | none => ""

/-- The viewport-straddle test of the overflow check. -/
def straddlesViewport (rect : Rect) (vp : Viewport) : Bool :=
  (rect.left < 0 && rect.right > 0) ||
  (rect.top < 0 && rect.bottom > 0) ||
  (rect.right > vp.innerWidth && rect.left < vp.innerWidth) ||
  (rect.bottom > vp.innerHeight && rect.top < vp.innerHeight)

/-- Model of `reasons.join(', ')`. -/
def joinComma : List String → String
  | [] => ""
  | [s] => s
  | s :: rest => s ++ ", " ++ joinComma rest

/-- Return value of `isFloatingElement`, together with the element as left
by the call (the code conditionally writes the `data-floating-reasons`
attribute onto it). -/
structure ClassifyResult where
  isFloating : Bool
  reasons : List String
  element : Element
  deriving DecidableEq, Repr

/-- Translation of `isFloatingElement(element, computedStyle, rect)`.  The
checkbox flags and viewport, which the source reads from the document, are
explicit inputs.  The sequential mutation of `isFloating`/`reasons` is the
accumulator chain; the final conditional `setAttribute` is the `e'` update. -/
def isFloatingElement (e : Element) (cs : ComputedStyle) (rect : Rect)
    (checks : Checks) (vp : Viewport) : ClassifyResult :=
  if e.closestHeader || e.closestMain || e.closestFooter then
    { isFloating := false, reasons := [], element := e }
  else
    let acc1 := stepCheck (false, [])
      (checks.detectPosition && isPositionedMode cs.position)
      ("Position: " ++ cs.position)
    let acc2 := stepCheck acc1
      (checks.detectHighZIndex && zIndexGT cs.zIndex 100)
      ("High z-index: " ++ zStr cs.zIndex)
    let acc3 := stepCheck acc2
      (checks.detectOverflow && straddlesViewport rect vp &&
        (cs.position == "fixed" || cs.position == "absolute"))
      "Partially outside viewport"
    let acc4 := stepCheck acc3 (hasFloatingCharacteristics e cs)
      "Common floating element characteristics"
    let e' :=
      if acc4.1 && !acc4.2.isEmpty then
        { e with dataFloatingReasons := some (joinComma acc4.2) }
      else e
    { isFloating := acc4.1, reasons := acc4.2, element := e' }

/-- Translation of `updateStats(computedStyle)` (the stats mutation; the
DOM text updates it also performs are rendering, outside the model). -/
def updateStats (stats : Stats) (cs : ComputedStyle) : Stats :=
  let s1 := { stats with total := stats.total + 1 }
  let s2 :=
    if cs.position == "fixed" then { s1 with fixed := s1.fixed + 1 }
    else if cs.position == "absolute" then { s1 with absolute := s1.absolute + 1 }
    else s1
  match cs.zIndex with
  | some z => if z > 100 then { s2 with highZIndex := s2.highZIndex + 1 } else s2
  | none => s2

/-- The detection event emitted to the result sink by `addToResults`: the
element handle, the captured snapshot, and the verdict's reasons. -/
structure DetectionEvent where
  elementUid : Nat
  style : ComputedStyle
  rect : Rect
  reasons : List String
  deriving DecidableEq, Repr

/-- Return value of one `analyzeElement` call: the updated engine state, the
events emitted during the call, and the element as left by the call. -/
structure AnalyzeResult where
  state : EngineState
  events : List DetectionEvent
  element : Option Element
  deriving DecidableEq, Repr

/-- Translation of `analyzeElement(element)`.  The snapshot (`computedStyle`,
`rect`) the code captures via `getComputedStyle`/`getBoundingClientRect`,
and the checkbox/viewport environment, are explicit inputs; `none` models
a null element argument. -/
def analyzeElement (st : EngineState) (elem : Option Element)
    (cs : ComputedStyle) (rect : Rect) (checks : Checks) (vp : Viewport) :
    AnalyzeResult :=
  match elem with
  | none => ⟨st, [], none⟩
  | some e =>
    if e.isBody || e.isDocumentElement then ⟨st, [], some e⟩
    else if st.detectedElements.contains e.uid then ⟨st, [], some e⟩
    else
      let r := isFloatingElement e cs rect checks vp
      if r.isFloating then
        ⟨{ st with
            detectedElements := st.detectedElements ++ [e.uid],
            stats := updateStats st.stats cs },
         [⟨e.uid, cs, rect, r.reasons⟩], some r.element⟩
      else ⟨st, [], some r.element⟩

/-- The empty object `{}` that `clearResults` passes to `updateStats`: its
`position` property is `undefined` (never equal to `'fixed'`/`'absolute'`,
modelled as `""`) and `parseInt(undefined)` is `NaN` (modelled as `none`). -/
def emptyComputedStyle : ComputedStyle := ⟨"", none⟩

/-- Translation of `clearResults()`: clear the registry, reset the stats
record, then call `updateStats({})` (the code's UI-refresh call). -/
def clearResults (st : EngineState) : EngineState :=
  let st1 := { st with detectedElements := ([] : List Nat),
                       stats := (⟨0, 0, 0, 0⟩ : Stats) }
  { st1 with stats := updateStats st1.stats emptyComputedStyle }

/-- The detector state right after construction: not detecting, empty
registry, zero stats, observer constructed but not yet observing. -/
def initState : EngineState := ⟨false, [], ⟨0, 0, 0, 0⟩, false⟩

/-- A scan item: the element visited together with the snapshot captured
for it at that moment. -/
def ScanItem := Option Element × ComputedStyle × Rect

/-- Visiting a list of elements with `analyzeElement` (the
`scanExistingElements` loop and the per-batch mutation processing). -/
def runScan (st : EngineState) (items : List ScanItem) (checks : Checks)
    (vp : Viewport) : EngineState :=
  items.foldl (fun s it => (analyzeElement s it.1 it.2.1 it.2.2 checks vp).state) st

/-- External stimuli of the engine: the UI buttons and a MutationObserver
delivery (which carries the affected elements and their snapshots). -/
inductive Op where
  | start (items : List ScanItem) (checks : Checks) (vp : Viewport)
  | stop
  | clear
  | mutationBatch (items : List ScanItem) (checks : Checks) (vp : Viewport)

/-- One engine transition.  `start` sets `isDetecting`, calls
`observer.observe` (re-observing the same target replaces the existing
registration, hence the single flag) and runs the full scan; `stop` clears
the flag and disconnects; `clear` is `clearResults`; a mutation batch is
delivered only while the observer is connected, and the callback returns
immediately unless `isDetecting`. -/
def step (st : EngineState) : Op → EngineState
  | .start items checks vp =>
      runScan { st with isDetecting := true, observerConnected := true } items checks vp
  | .stop => { st with isDetecting := false, observerConnected := false }
  | .clear => clearResults st
  | .mutationBatch items checks vp =>
      if st.observerConnected && st.isDetecting then runScan st items checks vp else st

/-- Engine states reachable from construction through any sequence of
button presses and observer deliveries. -/
inductive Reachable : EngineState → Prop
  | init : Reachable initState
  | next : ∀ {s : EngineState} (op : Op), Reachable s → Reachable (step s op)

/-! The identifier ("AI-assistant") ruleset.  Only the positional script
variant is present under `src/`; the identifier variant is described in the
spec (section 4.2, "Identifier ruleset") but its source is missing, so the
following definitions are modelled from the spec's words. -/

/-- Modelled from the spec: the element view of the identifier ruleset,
whose source file is missing from `src/` — class, id, the concatenation of
all attribute name=value pairs, whether the element is a text-input-like
element, whether it contains a text area / conversation-pattern descendant,
its position and z-index, and whether it carries a front-end-framework
root marker. -/
structure AIElement where
  className : String
  id : String
  attributesText : String
  isTextInput : Bool
  containsTextArea : Bool
  containsChatPattern : Bool
  position : String
  zIndex : Option Int
  hasFrameworkRootMarker : Bool
  deriving DecidableEq, Repr

/-- Modelled from the spec: product-name (vendor/brand) vocabulary of the
missing identifier ruleset. -/
def productKeywords : List String :=
  ["chatgpt", "gpt", "openai", "claude", "copilot", "gemini", "bard"]

/-- Modelled from the spec: feature-word vocabulary of the missing
identifier ruleset. -/
def featureKeywords : List String :=
  ["assistant", "chat", "bot", "completion", "prompt", "conversation"]

/-- Modelled from the spec: known container class/id fragment vocabulary of
the missing identifier ruleset. -/
def containerKeywords : List String :=
  ["ai-container", "chat-container", "assistant-panel"]

/-- Modelled from the spec: prompt/chat/message vocabulary used by the
missing ruleset's text-input condition. -/
def promptKeywords : List String := ["prompt", "chat", "message"]

/-- Modelled from the spec: the case-insensitive search text — class list,
id, and the concatenation of all attribute name=value pairs. -/
def aiSearchText (e : AIElement) : String :=
  strToLower (e.className ++ " " ++ e.id ++ " " ++ e.attributesText)

/-- Modelled from the spec: a product, feature, or container vocabulary hit
against class/id/attributes (framework-root markers never cause a match). -/
def aiVocabHit (e : AIElement) : Bool :=
  (productKeywords ++ featureKeywords ++ containerKeywords).any fun k =>
    strIncludes (aiSearchText e) k

/-- Modelled from the spec: a text-input-like element whose class or id
also references prompt/chat/message vocabulary. -/
def aiPromptInput (e : AIElement) : Bool :=
  e.isTextInput &&
    promptKeywords.any (fun k =>
      strIncludes (strToLower (e.className ++ " " ++ e.id)) k)

/-- Modelled from the spec: the styling-pattern condition — fixed-positioned,
z-index above 1000 or exactly -1, containing a conversation/chat/prompt
pattern or a text area among its descendants. -/
def aiStylingMatch (e : AIElement) : Bool :=
  e.position == "fixed" &&
    (zIndexGT e.zIndex 1000 || e.zIndex == some (-1)) &&
    (e.containsChatPattern || e.containsTextArea)

/-- Modelled from the spec: the identifier ruleset's match decision. -/
def aiIsMatch (e : AIElement) : Bool :=
  aiVocabHit e || aiPromptInput e || aiStylingMatch e

/-- Categories assigned by the identifier ruleset (plus `noMatch` for a
negative verdict). -/
inductive AICategory where
  | sidebar
  | interface
  | utility
  | noMatch
  deriving DecidableEq, Repr

/-- Modelled from the spec: "class/id mentions sidebar". -/
def aiSidebarHit (e : AIElement) : Bool :=
  strIncludes (strToLower (e.className ++ " " ++ e.id)) "sidebar"

/-- Modelled from the spec: ordered, mutually exclusive category assignment —
sidebar, else prompt-input / contains-text-area → interface, else utility. -/
def assignAICategory (e : AIElement) : AICategory :=
  if aiSidebarHit e then .sidebar
  else if aiPromptInput e || e.containsTextArea then .interface
  else .utility

/-- Modelled from the spec: the category reported for an element — the
assigned category on a match, `noMatch` otherwise. -/
def classifyAI (e : AIElement) : AICategory :=
  if aiIsMatch e then assignAICategory e else .noMatch

/-! Each of the four checks of `isFloatingElement`, presented as its own
match-flag/reason contribution.  These are the units the decomposition
theorems compare the sequential accumulation against. -/

/-- A check's contribution: its flag, and its reason exactly when it fired. -/
def checkPair (hit : Bool) (reason : String) : Bool × List String :=
  (hit, if hit then [reason] else [])

/-- The position check (gated by the `detectPosition` flag). -/
def positionCheck (c : Checks) (cs : ComputedStyle) : Bool × List String :=
  checkPair (c.detectPosition && isPositionedMode cs.position)
    ("Position: " ++ cs.position)

/-- The z-index check (gated by the `detectHighZIndex` flag). -/
def zIndexCheck (c : Checks) (cs : ComputedStyle) : Bool × List String :=
  checkPair (c.detectHighZIndex && zIndexGT cs.zIndex 100)
    ("High z-index: " ++ zStr cs.zIndex)

/-- The overflow check (gated by the `detectOverflow` flag). -/
def overflowCheck (c : Checks) (cs : ComputedStyle) (rect : Rect)
    (vp : Viewport) : Bool × List String :=
  checkPair
    (c.detectOverflow && straddlesViewport rect vp &&
      (cs.position == "fixed" || cs.position == "absolute"))
    "Partially outside viewport"

/-- The common-characteristics heuristic (not gated by any flag). -/
def characteristicsCheck (e : Element) (cs : ComputedStyle) : Bool × List String :=
  checkPair (hasFloatingCharacteristics e cs)
    "Common floating element characteristics"

/-! Concrete fixtures used by witnesses and counterexamples. -/

/-- A plain element handle with every flag off, carrying a class and an id. -/
def mkElement (uid : Nat) (className id : String) (children : Nat) : Element :=
  { uid := uid, className := className, id := id, childrenCount := children,
    isBody := false, isDocumentElement := false,
    closestHeader := false, closestMain := false, closestFooter := false,
    closestDataApp := false, closestIdApp := false, closestClassApp := false,
    dataFloatingReasons := none }

/-- A chat-widget styled element (keyword hit via "widget"/"chat"). -/
def chatWidgetElem : Element := mkElement 7 "chat-widget" "" 0

/-- A static, keyword-free element. -/
def plainElem : Element := mkElement 3 "content-card" "" 2

/-- A fixed-position, z-index 9999 support widget. -/
def supportWidgetElem : Element := mkElement 11 "support-widget" "" 1

/-- The body handle. -/
def bodyElem : Element :=
  { mkElement 0 "" "" 5 with isBody := true }

/-- The document root handle. -/
def docElem : Element :=
  { mkElement 1 "" "" 1 with isDocumentElement := true }

/-- A snapshot with `position: fixed` and `z-index: 9999`. -/
def fixedHighZStyle : ComputedStyle := ⟨"fixed", some 9999⟩

/-- A snapshot with `position: static` and an unparseable z-index. -/
def staticStyle : ComputedStyle := ⟨"static", none⟩

/-- A rect fully inside a 1000×800 viewport. -/
def insideRect : Rect := ⟨10, 10, 200, 200⟩

/-- A rect straddling the left viewport edge. -/
def straddleRect : Rect := ⟨10, -50, 30, 200⟩

/-- The 1000×800 viewport. -/
def vp0 : Viewport := ⟨1000, 800⟩

/-- All checkboxes ticked. -/
def allOn : Checks := ⟨true, true, true⟩

/-- All checkboxes cleared. -/
def allOff : Checks := ⟨false, false, false⟩

/-- An engine state mid-session with nonzero stats and a populated registry. -/
def busyState : EngineState := ⟨true, [1, 2, 3], ⟨5, 2, 1, 3⟩, true⟩

/-- Identifier-ruleset fixture: class "ai-chat-sidebar". -/
def aiSidebarElem : AIElement :=
  ⟨"ai-chat-sidebar", "", "", false, false, false, "", none, false⟩

/-- Identifier-ruleset fixture: class "chatgpt-widget", no sidebar, no
prompt-input, no text area. -/
def aiUtilityElem : AIElement :=
  ⟨"chatgpt-widget", "", "", false, false, false, "", none, false⟩

/-! Structural lemmas about the accumulator chain of `isFloatingElement`. -/

/-- The four-step accumulation equals the concatenation of the four
independent check contributions. -/
theorem chain_spec (h1 h2 h3 h4 : Bool) (s1 s2 s3 s4 : String) :
    stepCheck (stepCheck (stepCheck (stepCheck (false, []) h1 s1) h2 s2) h3 s3) h4 s4
      = (h1 || h2 || h3 || h4,
         (if h1 then [s1] else []) ++ (if h2 then [s2] else []) ++
         (if h3 then [s3] else []) ++ (if h4 then [s4] else [])) := by
  cases h1 <;> cases h2 <;> cases h3 <;> cases h4 <;> simp [stepCheck]

/-- Away from the engine-UI regions, `isFloatingElement` computes the
disjunction of the four checks, their concatenated reasons, and writes the
joined reasons onto the element exactly when the verdict is positive. -/
theorem isFloatingElement_spec (e : Element) (cs : ComputedStyle) (rect : Rect)
    (c : Checks) (vp : Viewport)
    (h : (e.closestHeader || e.closestMain || e.closestFooter) = false) :
    isFloatingElement e cs rect c vp =
      { isFloating := (positionCheck c cs).1 || (zIndexCheck c cs).1 ||
          (overflowCheck c cs rect vp).1 || (characteristicsCheck e cs).1,
        reasons := (positionCheck c cs).2 ++ (zIndexCheck c cs).2 ++
          (overflowCheck c cs rect vp).2 ++ (characteristicsCheck e cs).2,
        element :=
          if (positionCheck c cs).1 || (zIndexCheck c cs).1 ||
              (overflowCheck c cs rect vp).1 || (characteristicsCheck e cs).1 then
            { e with dataFloatingReasons := some (joinComma
                ((positionCheck c cs).2 ++ (zIndexCheck c cs).2 ++
                 (overflowCheck c cs rect vp).2 ++ (characteristicsCheck e cs).2)) }
          else e } := by
  rw [isFloatingElement]
  rw [if_neg (by simp [h])]
  simp only [chain_spec, positionCheck, zIndexCheck, overflowCheck,
    characteristicsCheck, checkPair]
  generalize (c.detectPosition && isPositionedMode cs.position) = b1
  generalize (c.detectHighZIndex && zIndexGT cs.zIndex 100) = b2
  generalize (c.detectOverflow && straddlesViewport rect vp &&
    (cs.position == "fixed" || cs.position == "absolute")) = b3
  generalize hasFloatingCharacteristics e cs = b4
  cases b1 <;> cases b2 <;> cases b3 <;> cases b4 <;> simp

/-- The element returned by `isFloatingElement` is the input element with
the `data-floating-reasons` attribute written exactly on a positive verdict. -/
theorem isFloatingElement_element_eq (e : Element) (cs : ComputedStyle)
    (rect : Rect) (c : Checks) (vp : Viewport) :
    (isFloatingElement e cs rect c vp).element =
      if (isFloatingElement e cs rect c vp).isFloating then
        { e with
          dataFloatingReasons := some (joinComma (isFloatingElement e cs rect c vp).reasons) }
      else e := by
  by_cases h : (e.closestHeader || e.closestMain || e.closestFooter) = true
  · rw [isFloatingElement, if_pos (by simp [h])]
    simp
  · rw [isFloatingElement_spec e cs rect c vp (by simpa using h)]

/-- Identity and body/root status of the element survive classification. -/
theorem isFloatingElement_element_fields (e : Element) (cs : ComputedStyle)
    (rect : Rect) (c : Checks) (vp : Viewport) :
    (isFloatingElement e cs rect c vp).element.uid = e.uid ∧
    (isFloatingElement e cs rect c vp).element.isBody = e.isBody ∧
    (isFloatingElement e cs rect c vp).element.isDocumentElement = e.isDocumentElement := by
  rw [isFloatingElement_element_eq e cs rect c vp]
  split <;> exact ⟨rfl, rfl, rfl⟩

/-- On a negative verdict the element comes back unchanged. -/
theorem isFloatingElement_element_of_noMatch (e : Element) (cs : ComputedStyle)
    (rect : Rect) (c : Checks) (vp : Viewport)
    (h : (isFloatingElement e cs rect c vp).isFloating = false) :
    (isFloatingElement e cs rect c vp).element = e := by
  rw [isFloatingElement_element_eq e cs rect c vp, h]
  simp

/-- One `updateStats` call increments `total` unconditionally, `fixed` or
`absolute` according to the position, and `highZIndex` when the parsed
z-index exceeds 100. -/
theorem updateStats_spec (s : Stats) (cs : ComputedStyle) :
    updateStats s cs = ⟨s.total + 1,
      s.fixed + (if cs.position == "fixed" then 1 else 0),
      s.absolute + (if cs.position == "absolute" then 1 else 0),
      s.highZIndex + (if zIndexGT cs.zIndex 100 then 1 else 0)⟩ := by
  by_cases hfx : cs.position = "fixed"
  · rcases hz : cs.zIndex with _ | z
    · simp [updateStats, hfx, hz, zIndexGT]
    · simp [updateStats, hfx, hz, zIndexGT]; split <;> simp
  · by_cases hab : cs.position = "absolute"
    · rcases hz : cs.zIndex with _ | z
      · simp [updateStats, hab, hfx, hz, zIndexGT]
      · simp [updateStats, hab, hfx, hz, zIndexGT]; split <;> simp
    · rcases hz : cs.zIndex with _ | z
      · simp [updateStats, hab, hfx, hz, zIndexGT]
      · simp [updateStats, hab, hfx, hz, zIndexGT]; split <;> simp

/-- The three possible outcomes of `analyzeElement` on a non-null element:
early return (body/root or already registered), a negative classification
(state untouched, element handed back), or a positive classification
(registration, stats update, one event). -/
theorem analyzeElement_cases (st : EngineState) (e : Element)
    (cs : ComputedStyle) (rect : Rect) (c : Checks) (vp : Viewport) :
    analyzeElement st (some e) cs rect c vp = ⟨st, [], some e⟩ ∨
    analyzeElement st (some e) cs rect c vp
      = ⟨st, [], some (isFloatingElement e cs rect c vp).element⟩ ∨
    analyzeElement st (some e) cs rect c vp
      = ⟨⟨st.isDetecting, st.detectedElements ++ [e.uid],
          updateStats st.stats cs, st.observerConnected⟩,
         [⟨e.uid, cs, rect, (isFloatingElement e cs rect c vp).reasons⟩],
         some (isFloatingElement e cs rect c vp).element⟩ := by
  cases hb : (e.isBody || e.isDocumentElement) with
  | true => exact Or.inl (by simp [analyzeElement, hb])
  | false =>
    cases hc : st.detectedElements.contains e.uid with
    | true =>
      have hc2 : e.uid ∈ st.detectedElements := by simpa using hc
      exact Or.inl (by simp [analyzeElement, hb, hc2])
    | false =>
      have hc2 : e.uid ∉ st.detectedElements := by simpa using hc
      cases hf : (isFloatingElement e cs rect c vp).isFloating with
      | true => exact Or.inr (Or.inr (by simp [analyzeElement, hb, hc2, hf]))
      | false => exact Or.inr (Or.inl (by simp [analyzeElement, hb, hc2, hf]))

/-- `analyzeElement` never changes the session flag or the subscription. -/
theorem analyzeElement_flags (st : EngineState) (elem : Option Element)
    (cs : ComputedStyle) (rect : Rect) (c : Checks) (vp : Viewport) :
    (analyzeElement st elem cs rect c vp).state.isDetecting = st.isDetecting ∧
    (analyzeElement st elem cs rect c vp).state.observerConnected = st.observerConnected := by
  cases elem with
  | none => exact ⟨rfl, rfl⟩
  | some e =>
    rcases analyzeElement_cases st e cs rect c vp with h | h | h <;>
      rw [h] <;> exact ⟨rfl, rfl⟩

/-- C1: refuted by the code — `clearResults` does empty the dedup registry
and leaves `isDetecting` and the observer subscription untouched, but its
trailing `updateStats({})` call increments `stats.total`, so the counters
end at `total = 1`, not all-zero.  Evaluated on a mid-session state with
stats (5, 2, 1, 3) and registry {1, 2, 3}. -/
theorem clearResults_total_bug :
    clearResults busyState = ⟨true, [], ⟨1, 0, 0, 0⟩, true⟩ ∧
    (clearResults busyState).stats.total ≠ 0 := by decide

/-- C3 counterexample: with every checkbox disabled, an element with class
`chat-widget` and a static, z-index-free snapshot still matches, and a
reason is still produced — the common-characteristics heuristic is not
gated by any flag, refuting "with all checks disabled, no element matches
and no reason is produced". -/
theorem allChecksOff_still_matches :
    (isFloatingElement chatWidgetElem staticStyle insideRect allOff vp0).isFloating = true ∧
    (isFloatingElement chatWidgetElem staticStyle insideRect allOff vp0).reasons
      = ["Common floating element characteristics"] := by decide

/-- C3 (amended): each of the three flag-gated checks (position, high
z-index, overflow) is independently toggle-able and, when its flag is
disabled, contributes neither to the match verdict nor to the reasons
sequence; the verdict is the disjunction of the four checks and the reasons
their in-order concatenation.  The common-characteristics heuristic carries
no flag, so with all three flags disabled an element matches exactly when
that heuristic fires. -/
theorem checks_toggle_decomposition (e : Element) (cs : ComputedStyle)
    (rect : Rect) (c : Checks) (vp : Viewport)
    (h : (e.closestHeader || e.closestMain || e.closestFooter) = false) :
    (isFloatingElement e cs rect c vp).isFloating
      = ((positionCheck c cs).1 || (zIndexCheck c cs).1 ||
         (overflowCheck c cs rect vp).1 || (characteristicsCheck e cs).1) ∧
    (isFloatingElement e cs rect c vp).reasons
      = ((positionCheck c cs).2 ++ (zIndexCheck c cs).2 ++
         (overflowCheck c cs rect vp).2 ++ (characteristicsCheck e cs).2) ∧
    (c.detectPosition = false → positionCheck c cs = (false, [])) ∧
    (c.detectHighZIndex = false → zIndexCheck c cs = (false, [])) ∧
    (c.detectOverflow = false → overflowCheck c cs rect vp = (false, [])) ∧
    (isFloatingElement e cs rect allOff vp).isFloating
      = hasFloatingCharacteristics e cs := by
  refine ⟨?_, ?_, ?_, ?_, ?_, ?_⟩
  · rw [isFloatingElement_spec e cs rect c vp h]
  · rw [isFloatingElement_spec e cs rect c vp h]
  · intro hp; simp [positionCheck, checkPair, hp]
  · intro hz; simp [zIndexCheck, checkPair, hz]
  · intro ho; simp [overflowCheck, checkPair, ho]
  · rw [isFloatingElement_spec e cs rect allOff vp h]
    simp [positionCheck, zIndexCheck, overflowCheck, characteristicsCheck,
      checkPair, allOff]

/-- C3 witness: the decomposition instantiated on a concrete off-UI element. -/
theorem checks_toggle_decomposition_witness :
    (isFloatingElement chatWidgetElem fixedHighZStyle insideRect allOn vp0).isFloating
      = ((positionCheck allOn fixedHighZStyle).1 || (zIndexCheck allOn fixedHighZStyle).1 ||
         (overflowCheck allOn fixedHighZStyle insideRect vp0).1 ||
         (characteristicsCheck chatWidgetElem fixedHighZStyle).1) :=
  (checks_toggle_decomposition chatWidgetElem fixedHighZStyle insideRect allOn vp0
    (by decide)).1

/-- C4 counterexample: classifying a `chat-widget` element with a
fixed/high-z snapshot changes the element — the classifier writes the
`data-floating-reasons` attribute onto it, refuting "classification ...
does not modify the inspected element". -/
theorem classifier_mutates_element :
    (isFloatingElement chatWidgetElem fixedHighZStyle insideRect allOn vp0).element
      ≠ chatWidgetElem ∧
    (isFloatingElement chatWidgetElem fixedHighZStyle insideRect allOn vp0).element.dataFloatingReasons
      = some "Position: fixed, High z-index: 9999, Common floating element characteristics" := by
  decide

/-- C4 (amended): the verdict and reasons are a function of the element,
the captured snapshot, the check configuration and the viewport — in
particular they do not depend on any previously written
`data-floating-reasons` marker — but the classifier is not mutation-free:
on a positive verdict it writes the joined reasons back onto the inspected
element, and on a negative verdict it leaves the element unchanged. -/
theorem classifier_mutation_characterization (e : Element) (cs : ComputedStyle)
    (rect : Rect) (c : Checks) (vp : Viewport) :
    ((isFloatingElement e cs rect c vp).element =
      if (isFloatingElement e cs rect c vp).isFloating then
        { e with
          dataFloatingReasons := some (joinComma (isFloatingElement e cs rect c vp).reasons) }
      else e) ∧
    (∀ prev : Option String,
      (isFloatingElement { e with dataFloatingReasons := prev } cs rect c vp).isFloating
        = (isFloatingElement e cs rect c vp).isFloating ∧
      (isFloatingElement { e with dataFloatingReasons := prev } cs rect c vp).reasons
        = (isFloatingElement e cs rect c vp).reasons) := by
  constructor
  · exact isFloatingElement_element_eq e cs rect c vp
  · intro prev
    by_cases h : (e.closestHeader || e.closestMain || e.closestFooter) = true
    · rw [isFloatingElement, isFloatingElement]
      rw [if_pos (by simp [h]), if_pos (by simp [h])]
      exact ⟨rfl, rfl⟩
    · rw [isFloatingElement_spec e cs rect c vp (by simpa using h),
          isFloatingElement_spec { e with dataFloatingReasons := prev } cs rect c vp
            (by simpa using h)]
      exact ⟨rfl, rfl⟩

/-- C10: a null handle, the body element, and the document root element are
complete no-ops for `analyzeElement`: registry, stats and the event
sequence are untouched and the element is not inspected — the result is
the same for every snapshot, so no capture or classification takes place. -/
theorem trivial_handles_noop (st : EngineState) (cs : ComputedStyle)
    (rect : Rect) (c : Checks) (vp : Viewport) :
    analyzeElement st none cs rect c vp = ⟨st, [], none⟩ ∧
    (∀ e : Element, e.isBody = true →
      analyzeElement st (some e) cs rect c vp = ⟨st, [], some e⟩) ∧
    (∀ e : Element, e.isDocumentElement = true →
      analyzeElement st (some e) cs rect c vp = ⟨st, [], some e⟩) := by
  refine ⟨rfl, ?_, ?_⟩
  · intro e he; simp [analyzeElement, he]
  · intro e he; simp [analyzeElement, he]

/-- C10 witness: the body handle on a busy mid-session state. -/
theorem trivial_handles_noop_witness :
    analyzeElement busyState (some bodyElem) fixedHighZStyle insideRect allOn vp0
      = ⟨busyState, [], some bodyElem⟩ :=
  (trivial_handles_noop busyState fixedHighZStyle insideRect allOn vp0).2.1
    bodyElem rfl

/-- C2: an `analyzeElement` call emits at most one event and bumps
`stats.total` by exactly the number of events it emits; and once the
element has entered the dedup registry, a repeated call on the element the
first call handed back — with an arbitrarily different re-captured
snapshot — changes neither the state nor the event sequence nor the
element. -/
theorem analyzeElement_idempotent (st : EngineState) (e : Element)
    (cs1 cs2 : ComputedStyle) (r1 r2 : Rect) (c : Checks) (vp : Viewport)
    (h : ((analyzeElement st (some e) cs1 r1 c vp).state.detectedElements).contains e.uid
          = true) :
    (analyzeElement st (some e) cs1 r1 c vp).events.length ≤ 1 ∧
    (analyzeElement st (some e) cs1 r1 c vp).state.stats.total
      = st.stats.total + (analyzeElement st (some e) cs1 r1 c vp).events.length ∧
    analyzeElement (analyzeElement st (some e) cs1 r1 c vp).state
        (analyzeElement st (some e) cs1 r1 c vp).element cs2 r2 c vp
      = ⟨(analyzeElement st (some e) cs1 r1 c vp).state, [],
         (analyzeElement st (some e) cs1 r1 c vp).element⟩ := by
  cases hb : (e.isBody || e.isDocumentElement) with
  | true =>
    have h1 : analyzeElement st (some e) cs1 r1 c vp = ⟨st, [], some e⟩ := by
      simp [analyzeElement, hb]
    rw [h1]
    exact ⟨by simp, by simp, by simp [analyzeElement, hb]⟩
  | false =>
    cases hc : st.detectedElements.contains e.uid with
    | true =>
      have hc2 : e.uid ∈ st.detectedElements := by simpa using hc
      have h1 : analyzeElement st (some e) cs1 r1 c vp = ⟨st, [], some e⟩ := by
        simp [analyzeElement, hb, hc2]
      rw [h1]
      exact ⟨by simp, by simp, by simp [analyzeElement, hb, hc2]⟩
    | false =>
      have hc2 : e.uid ∉ st.detectedElements := by simpa using hc
      cases hf : (isFloatingElement e cs1 r1 c vp).isFloating with
      | false =>
        have h1 : analyzeElement st (some e) cs1 r1 c vp
            = ⟨st, [], some (isFloatingElement e cs1 r1 c vp).element⟩ := by
          simp [analyzeElement, hb, hc2, hf]
        rw [h1] at h
        exact absurd h (by simpa using hc2)
      | true =>
        have h1 : analyzeElement st (some e) cs1 r1 c vp
            = ⟨⟨st.isDetecting, st.detectedElements ++ [e.uid],
                updateStats st.stats cs1, st.observerConnected⟩,
               [⟨e.uid, cs1, r1, (isFloatingElement e cs1 r1 c vp).reasons⟩],
               some (isFloatingElement e cs1 r1 c vp).element⟩ := by
          simp [analyzeElement, hb, hc2, hf]
        rw [h1]
        have hfld := isFloatingElement_element_fields e cs1 r1 c vp
        have hb2 : ((isFloatingElement e cs1 r1 c vp).element.isBody
            || (isFloatingElement e cs1 r1 c vp).element.isDocumentElement) = false := by
          rw [hfld.2.1, hfld.2.2]; exact hb
        have hc3 : (isFloatingElement e cs1 r1 c vp).element.uid
            ∈ st.detectedElements ++ [e.uid] := by
          rw [hfld.1]; simp
        refine ⟨by simp, ?_, by simp [analyzeElement, hb2, hc3]⟩
        simp [updateStats_spec]

/-- C2 witness: a fresh chat-widget element enters the registry on the
first call; the second call is a complete no-op. -/
theorem analyzeElement_idempotent_witness :
    analyzeElement (analyzeElement initState (some chatWidgetElem) fixedHighZStyle insideRect allOn vp0).state
        (analyzeElement initState (some chatWidgetElem) fixedHighZStyle insideRect allOn vp0).element
        staticStyle straddleRect allOn vp0
      = ⟨(analyzeElement initState (some chatWidgetElem) fixedHighZStyle insideRect allOn vp0).state,
         [],
         (analyzeElement initState (some chatWidgetElem) fixedHighZStyle insideRect allOn vp0).element⟩ :=
  (analyzeElement_idempotent initState chatWidgetElem fixedHighZStyle staticStyle
    insideRect straddleRect allOn vp0 (by decide)).2.2

/-- C6 counterexample: one positive classification of a fresh
`position: fixed`, `z-index: 9999` element increments two per-category
counters (`fixed` and `highZIndex`) besides `total`, refuting "increments
exactly one per-category Stats counter by one". -/
theorem positive_classification_two_counters :
    (analyzeElement initState (some supportWidgetElem) fixedHighZStyle insideRect allOn vp0).state.stats
      = ⟨1, 1, 0, 1⟩ ∧
    (analyzeElement initState (some supportWidgetElem) fixedHighZStyle insideRect allOn vp0).events.length
      = 1 := by decide

/-- C6 (amended): a positive classification of a previously unseen element
appends the handle to the registry, emits exactly one detection event
carrying the handle, the captured snapshot and the verdict's reasons, and
updates the stats as `updateStats` does — `total` by one, `fixed` if the
position is fixed, `absolute` if it is absolute, and `highZIndex` if the
parsed z-index exceeds 100 (so two category counters can move for a single
element); session flag and subscription are untouched. -/
theorem positive_classification_effects (st : EngineState) (e : Element)
    (cs : ComputedStyle) (rect : Rect) (c : Checks) (vp : Viewport)
    (hb : e.isBody = false) (hd : e.isDocumentElement = false)
    (hfresh : st.detectedElements.contains e.uid = false)
    (hmatch : (isFloatingElement e cs rect c vp).isFloating = true) :
    analyzeElement st (some e) cs rect c vp
      = ⟨⟨st.isDetecting, st.detectedElements ++ [e.uid],
          ⟨st.stats.total + 1,
           st.stats.fixed + (if cs.position == "fixed" then 1 else 0),
           st.stats.absolute + (if cs.position == "absolute" then 1 else 0),
           st.stats.highZIndex + (if zIndexGT cs.zIndex 100 then 1 else 0)⟩,
          st.observerConnected⟩,
         [⟨e.uid, cs, rect, (isFloatingElement e cs rect c vp).reasons⟩],
         some (isFloatingElement e cs rect c vp).element⟩ := by
  have hfresh2 : e.uid ∉ st.detectedElements := by simpa using hfresh
  simp [analyzeElement, hb, hd, hfresh2, hmatch, updateStats_spec]

/-- C6 witness: the amended effects evaluated on the fixed/high-z support
widget from the fresh engine state. -/
theorem positive_classification_effects_witness :
    analyzeElement initState (some supportWidgetElem) fixedHighZStyle insideRect allOn vp0
      = ⟨⟨initState.isDetecting, initState.detectedElements ++ [supportWidgetElem.uid],
          ⟨initState.stats.total + 1,
           initState.stats.fixed + (if fixedHighZStyle.position == "fixed" then 1 else 0),
           initState.stats.absolute + (if fixedHighZStyle.position == "absolute" then 1 else 0),
           initState.stats.highZIndex + (if zIndexGT fixedHighZStyle.zIndex 100 then 1 else 0)⟩,
          initState.observerConnected⟩,
         [⟨supportWidgetElem.uid, fixedHighZStyle, insideRect,
           (isFloatingElement supportWidgetElem fixedHighZStyle insideRect allOn vp0).reasons⟩],
         some (isFloatingElement supportWidgetElem fixedHighZStyle insideRect allOn vp0).element⟩ :=
  positive_classification_effects initState supportWidgetElem fixedHighZStyle
    insideRect allOn vp0 (by decide) (by decide) (by decide) (by decide)

/-- C8: classification is total — the embedding is defined on every element
handle, and when style/attribute introspection yields only empty or default
values (the detached-element case: empty class and id, no resolvable
position, unparseable z-index) the classifier returns "no match" and
`analyzeElement` leaves state, events and element untouched, for every
rect, check configuration, viewport and engine state. -/
theorem classification_total_degrades (st : EngineState) (e : Element)
    (rect : Rect) (c : Checks) (vp : Viewport)
    (hclass : e.className = "") (hid : e.id = "") :
    (isFloatingElement e emptyComputedStyle rect c vp).isFloating = false ∧
    analyzeElement st (some e) emptyComputedStyle rect c vp = ⟨st, [], some e⟩ := by
  have hkw : hasFloatingKeyword e = false := by
    simp only [hasFloatingKeyword, hclass, hid]
    decide
  have hchar : hasFloatingCharacteristics e emptyComputedStyle = false := by
    simp [hasFloatingCharacteristics, hkw, emptyComputedStyle, zIndexGT,
      isPositionedMode]
  have hchar2 : hasFloatingCharacteristics e ⟨"", none⟩ = false := hchar
  have hfl : (isFloatingElement e emptyComputedStyle rect c vp).isFloating = false := by
    by_cases h : (e.closestHeader || e.closestMain || e.closestFooter) = true
    · rw [isFloatingElement, if_pos (by simp [h])]
    · rw [isFloatingElement_spec e emptyComputedStyle rect c vp (by simpa using h)]
      simp [positionCheck, zIndexCheck, overflowCheck, characteristicsCheck,
        checkPair, hchar2, emptyComputedStyle, zIndexGT, isPositionedMode]
  refine ⟨hfl, ?_⟩
  rcases analyzeElement_cases st e emptyComputedStyle rect c vp with h1 | h1 | h1
  · exact h1
  · rw [h1, isFloatingElement_element_of_noMatch e emptyComputedStyle rect c vp hfl]
  · rw [h1]
    exfalso
    cases hb : (e.isBody || e.isDocumentElement) with
    | true => simp [analyzeElement, hb] at h1
    | false =>
      cases hc : st.detectedElements.contains e.uid with
      | true =>
        have hc2 : e.uid ∈ st.detectedElements := by simpa using hc
        simp [analyzeElement, hb, hc2] at h1
      | false =>
        have hc2 : e.uid ∉ st.detectedElements := by simpa using hc
        simp [analyzeElement, hb, hc2, hfl] at h1

/-- C8 witness: a detached, attribute-less element on a busy state. -/
theorem classification_total_degrades_witness :
    analyzeElement busyState (some (mkElement 99 "" "" 0)) emptyComputedStyle
        insideRect allOn vp0
      = ⟨busyState, [], some (mkElement 99 "" "" 0)⟩ :=
  (classification_total_degrades busyState (mkElement 99 "" "" 0) insideRect
    allOn vp0 rfl rfl).2

/-- The z-index reason string is never the viewport-straddle reason. -/
theorem highZ_reason_ne (s : String) :
    "High z-index: " ++ s ≠ "Partially outside viewport" := by
  intro hcontra
  cases s with
  | mk l =>
    have h2 := congrArg String.data hcontra
    simp [String.append] at h2

/-- C5: for an element whose position mode is none of fixed/absolute/sticky
and whose class list and id carry no floating-UI keyword, the bounding box
plays no role at all — the classification outcome is identical for every
rect, so a box straddling a viewport edge never produces a match that a
fully-inside box would not; the straddle reason is never emitted; and any
positive verdict such an element can still get is due solely to the enabled
z-index check with a parsed z-index above 100, never to overflow. -/
theorem overflow_subordination (e : Element) (cs : ComputedStyle) (c : Checks)
    (vp : Viewport)
    (hfix : cs.position ≠ "fixed") (habs : cs.position ≠ "absolute")
    (hstk : cs.position ≠ "sticky") (hkw : hasFloatingKeyword e = false) :
    (∀ rect rect2 : Rect,
      isFloatingElement e cs rect c vp = isFloatingElement e cs rect2 c vp) ∧
    (∀ rect : Rect,
      "Partially outside viewport" ∉ (isFloatingElement e cs rect c vp).reasons) ∧
    (∀ rect : Rect, (isFloatingElement e cs rect c vp).isFloating = true →
      c.detectHighZIndex = true ∧ zIndexGT cs.zIndex 100 = true) := by
  have hpm : isPositionedMode cs.position = false := by
    simp [isPositionedMode, hfix, habs, hstk]
  have hfab : (cs.position == "fixed" || cs.position == "absolute") = false := by
    simp [hfix, habs]
  have hchar : hasFloatingCharacteristics e cs = false := by
    simp [hasFloatingCharacteristics, hkw, hpm]
  by_cases h : (e.closestHeader || e.closestMain || e.closestFooter) = true
  · have hred : ∀ r : Rect, isFloatingElement e cs r c vp
        = ⟨false, [], e⟩ := fun r => by
      rw [isFloatingElement, if_pos (by simp [h])]
    refine ⟨fun rect rect2 => by rw [hred, hred],
            fun rect => by rw [hred]; simp,
            fun rect hT => by rw [hred] at hT; simp at hT⟩
  · have h2 : (e.closestHeader || e.closestMain || e.closestFooter) = false := by
      simpa using h
    have hred : ∀ r : Rect, isFloatingElement e cs r c vp =
        { isFloating := (zIndexCheck c cs).1,
          reasons := (zIndexCheck c cs).2,
          element :=
            if (zIndexCheck c cs).1 then
              { e with dataFloatingReasons := some (joinComma (zIndexCheck c cs).2) }
            else e } := by
      intro r
      rw [isFloatingElement_spec e cs r c vp h2]
      simp [positionCheck, overflowCheck, characteristicsCheck, checkPair,
        hpm, hfab, hchar]
    refine ⟨fun rect rect2 => by rw [hred, hred], ?_, ?_⟩
    · intro rect
      rw [hred]
      show "Partially outside viewport" ∉ (zIndexCheck c cs).2
      rw [zIndexCheck, checkPair]
      split
      · intro hmem
        rw [List.mem_singleton] at hmem
        exact highZ_reason_ne (zStr cs.zIndex) hmem.symm
      · simp
    · intro rect hT
      rw [hred] at hT
      have hT2 : (zIndexCheck c cs).1 = true := hT
      rw [zIndexCheck, checkPair] at hT2
      simpa using hT2

/-- C5 witness: a static, keyword-free element classifies identically with
a left-edge-straddling box and a fully-inside box, and does not match. -/
theorem overflow_subordination_witness :
    isFloatingElement plainElem staticStyle straddleRect allOn vp0
      = isFloatingElement plainElem staticStyle insideRect allOn vp0 ∧
    (isFloatingElement plainElem staticStyle straddleRect allOn vp0).isFloating
      = false :=
  ⟨(overflow_subordination plainElem staticStyle allOn vp0 (by decide) (by decide)
      (by decide) (by decide)).1 straddleRect insideRect,
   by decide⟩

/-- `runScan` never changes the session flag or the subscription. -/
theorem runScan_flags (items : List ScanItem) (st : EngineState) (c : Checks)
    (vp : Viewport) :
    (runScan st items c vp).isDetecting = st.isDetecting ∧
    (runScan st items c vp).observerConnected = st.observerConnected := by
  induction items generalizing st with
  | nil => exact ⟨rfl, rfl⟩
  | cons it t ih =>
    have h1 := analyzeElement_flags st it.1 it.2.1 it.2.2 c vp
    have h2 := ih (analyzeElement st it.1 it.2.1 it.2.2 c vp).state
    simp only [runScan, List.foldl_cons] at *
    exact ⟨h2.1.trans h1.1, h2.2.trans h1.2⟩

/-- `clearResults` never changes the session flag or the subscription. -/
theorem clearResults_flags (st : EngineState) :
    (clearResults st).isDetecting = st.isDetecting ∧
    (clearResults st).observerConnected = st.observerConnected := ⟨rfl, rfl⟩

/-- C7: in every engine state reachable from construction through any
sequence of start/stop/clear presses and observer deliveries, the change
feed subscription exists exactly when the session is active — `start`
while active re-observes the same target (one registration, one flag) and
`stop` while idle merely re-clears it, so no second subscription is ever
created and none is ever leaked. -/
theorem subscription_iff_active (s : EngineState) (h : Reachable s) :
    s.observerConnected = s.isDetecting := by
  induction h with
  | init => rfl
  | next op hr ih =>
    rename_i st0
    cases op with
    | start items c vp =>
      show (runScan _ items c vp).observerConnected = (runScan _ items c vp).isDetecting
      rw [(runScan_flags items _ c vp).1, (runScan_flags items _ c vp).2]
    | stop => rfl
    | clear =>
      show (clearResults st0).observerConnected = (clearResults st0).isDetecting
      rw [(clearResults_flags st0).1, (clearResults_flags st0).2]
      exact ih
    | mutationBatch items c vp =>
      simp only [step]
      split
      · rw [(runScan_flags items st0 c vp).1, (runScan_flags items st0 c vp).2]
        exact ih
      · exact ih

/-- C7 witness: the invariant at the freshly constructed engine. -/
theorem subscription_iff_active_witness :
    initState.observerConnected = initState.isDetecting :=
  subscription_iff_active initState Reachable.init

/-- C9: under the (spec-modelled) identifier ruleset, category assignment
is mutually exclusive and evaluated in order — sidebar wins when class/id
mentions "sidebar", else a prompt-input or text-area-containing element is
interface, else utility — and on the spec's examples: class
`ai-chat-sidebar` is a match with category sidebar, and class
`chatgpt-widget` with no sidebar/prompt/text-area signal is a match with
category utility. -/
theorem ai_category_order (e : AIElement) :
    (assignAICategory e = AICategory.sidebar ↔ aiSidebarHit e = true) ∧
    (assignAICategory e = AICategory.interface ↔
      (aiSidebarHit e = false ∧ (aiPromptInput e || e.containsTextArea) = true)) ∧
    (assignAICategory e = AICategory.utility ↔
      (aiSidebarHit e = false ∧ (aiPromptInput e || e.containsTextArea) = false)) ∧
    classifyAI aiSidebarElem = AICategory.sidebar ∧
    aiIsMatch aiSidebarElem = true ∧
    classifyAI aiUtilityElem = AICategory.utility ∧
    aiIsMatch aiUtilityElem = true := by
  refine ⟨?_, ?_, ?_, by decide, by decide, by decide, by decide⟩ <;>
    cases h1 : aiSidebarHit e <;>
    cases h2 : (aiPromptInput e || e.containsTextArea) <;>
    simp [assignAICategory, h1, h2]

/-- C9 witness: the ruleset evaluated on the sidebar example. -/
theorem ai_category_order_witness :
    classifyAI aiSidebarElem = AICategory.sidebar :=
  (ai_category_order aiSidebarElem).2.2.2.1

end FloatingDetect
